import Mathlib

/-!
Verification of the OmniLaTeX build script (src/build.py), centred on the
per-example build loop `BuildTasks.build_example` (build.py lines 742-869),
the process-invocation layer `CommandRunner.run` (lines 281-353), and the
progress-bar fallback chosen at import time (lines 28-50).

The outside world (filesystem state, subprocess results) is modelled by
explicit environment records; Python exceptions are modelled by the
`ExcKind` type together with `Except`.  Wall-clock timings that the script
interpolates into some messages are not modelled; everything else in a
message is.
-/

/-- Python exception kinds relevant to build.py.  `fileNotFound` is listed
separately from `osError` because the code names both classes in its
`except` clauses; `unboundLocal` models the Python UnboundLocalError,
raised when a local variable is referenced before assignment. -/
inductive ExcKind where
  | osError (msg : String)
  | fileNotFound (msg : String)
  | calledProcess (returncode : Int)
  | other (msg : String)
  | unboundLocal
  deriving DecidableEq, Repr

/-- build.py line 56. -/
def MAIN_TEX_FILENAME : String := "main.tex"

/-- build.py line 58. -/
def LATEXMK_COMMAND : String := "latexmk"

/-- build.py line 59. -/
def INTERACTION_NONSTOP : String := "-interaction=nonstopmode"

/-- build.py line 60. -/
def FORCE_REBUILD_FLAG : String := "-g"

/-- build.py line 61. -/
def MINTED_CACHE_SUBDIR : String := "_minted"

/-- build.py line 63. -/
def BUILD_EXAMPLES_SUBDIR : String := "examples"

/-- os.pathsep on the POSIX platforms this script targets. -/
def pathSep : String := ":"

/-- The latex_commands set of CommandRunner._categorize_error
(build.py line 252). -/
def latexCommands : List String := ["latexmk", "pdflatex", "xelatex", "lualatex"]

/-- ASCII lower-casing of one character (the command names compared here
are all ASCII). -/
def charLower (c : Char) : Char :=
  if 65 ≤ c.toNat ∧ c.toNat ≤ 90 then Char.ofNat (c.toNat + 32) else c

/-- str.lower() for the ASCII command names this script compares. -/
def strLower (s : String) : String :=
  ⟨s.data.map charLower⟩

/-- CommandRunner._categorize_error (build.py lines 249-263).  The Python
indexes cmd_args[0]; every call site passes a nonempty command list, so the
default "" of `headD` is never consulted. -/
def categorizeError (cmdArgs : List String) (exc : ExcKind) : String :=
  let command := strLower (cmdArgs.headD "")
  if latexCommands.contains command then
    "LaTeX compilation error"
  else
    match exc with
    | .fileNotFound _ => "System command not found"
    | .calledProcess r =>
        if r == 1 && latexCommands.contains command then "LaTeX compilation error"
        else "System command error"
    | _ => "Unknown error"

/-- CommandRunner._get_error_suggestions (build.py lines 265-279).  The
extra suggestion tied to a CalledProcessError with captured stderr never
fires in the paths modelled here: build_example leaves capture_output at
False, so exc.stderr is None. -/
def getErrorSuggestions (category : String) (cmdArgs : List String) : List String :=
  if category = "LaTeX compilation error" then
    ["Check TEXINPUTS environment variable for missing packages or paths.",
     "Ensure all required LaTeX packages are installed (e.g., via tlmgr).",
     "Verify the .tex file syntax and references."]
  else if category = "System command not found" then
    ["Install \x27" ++ cmdArgs.headD "" ++ "\x27 or ensure it\x27s in your PATH."]
  else if category = "System command error" then
    ["Check command arguments and system permissions."]
  else
    []

/-- What the external world does when one subprocess is launched:
whether the program can be located and started, and the exit code it
returns when it does start. -/
structure RunEnv where
  progMissing : Bool
  exitCode : Int
  deriving DecidableEq, Repr

/-- subprocess.run(cmd_args, check=True, ...) as called at build.py line
328: raises FileNotFoundError when the program cannot be located, raises
CalledProcessError on a nonzero exit (check=True), otherwise returns. -/
def subprocessRun (env : RunEnv) : Except ExcKind Unit :=
  if env.progMissing then
    .error (.fileNotFound "[Errno 2] No such file or directory")
  else if env.exitCode != 0 then
    .error (.calledProcess env.exitCode)
  else
    .ok ()

/-- Messages the script prints.  Constructors record the printing channel
(TerminalOutput method / indented_step status) and the information content
of the message. -/
inductive Msg where
  | runnerError (text : String)
  | stepInfo (text : String)
  | stepProgress (text : String)
  | stepWarning (text : String)
  | stepSuccess (text : String)
  | stepError (text : String)
  | uiSuccess (text : String)
  | uiError (text : String)
  deriving DecidableEq, Repr

/-- CommandRunner.format_command (build.py lines 230-231). -/
def formatCommand (args : List String) : String :=
  String.intercalate " " args

/-- The error message CommandRunner.run assembles for a CalledProcessError
(build.py lines 333-345), minus the elapsed-seconds figure, which is
wall-clock time and not modelled.  The verbose stderr appendix never fires
here: with capture_output False, exc.stderr is None. -/
def runErrorMsgCalledProcess (cmdArgs : List String) (r : Int) : String :=
  let category := categorizeError cmdArgs (.calledProcess r)
  let suggestions := getErrorSuggestions category cmdArgs
  let base := category ++ ": Command failed (exit " ++ toString r ++ "): "
      ++ formatCommand cmdArgs
  if suggestions.isEmpty then base
  else base ++ "\nSuggestions:\n"
      ++ String.intercalate "\n" (suggestions.map (fun s => "  - " ++ s))

/-- The error message CommandRunner.run assembles for a FileNotFoundError
(build.py lines 346-352). -/
def runErrorMsgFileNotFound (cmdArgs : List String) (m : String) : String :=
  let category := categorizeError cmdArgs (.fileNotFound m)
  let suggestions := getErrorSuggestions category cmdArgs
  let base := category ++ ": " ++ m
  if suggestions.isEmpty then base
  else base ++ "\nSuggestions:\n"
      ++ String.intercalate "\n" (suggestions.map (fun s => "  - " ++ s))

/-- CommandRunner.run in the capture_output=False form used by
build_example (build.py lines 281-353): launch the subprocess, catch
CalledProcessError and FileNotFoundError, report them through ui.error and
return None; on success also return None.  Any exception outside the two
named classes would propagate (final `.error e` arm). -/
def commandRunnerRun (cmdArgs : List String) (env : RunEnv) :
    Except ExcKind (Option String × List Msg) :=
  match subprocessRun env with
  | .ok _ => .ok (none, [])
  | .error (.calledProcess r) =>
      .ok (none, [Msg.uiError (runErrorMsgCalledProcess cmdArgs r)])
  | .error (.fileNotFound m) =>
      .ok (none, [Msg.uiError (runErrorMsgFileNotFound cmdArgs m)])
  | .error e => .error e

/-- CommandRunner.run never surfaces an exception for a missing program or
a nonzero exit: it always returns, with None as its result value. -/
theorem commandRunnerRun_ok (cmdArgs : List String) (env : RunEnv) :
    ∃ msgs, commandRunnerRun cmdArgs env = Except.ok (none, msgs) := by
  unfold commandRunnerRun subprocessRun
  by_cases h1 : env.progMissing
  · simp [h1]
  · simp [h1]
    by_cases h2 : env.exitCode = 0
    · simp [h2]
    · simp [h2]

/-- The per-unit world for one iteration of the build_example loop:
filesystem facts about the example directory, the ambient environment
variables consulted, whether the cache-directory setup (build.py lines
806-809) raises, the subprocess behaviour, whether main.pdf exists after
the invocation, and whether shutil.copy of the artifact raises an OSError
(carrying its message). -/
structure UnitEnv where
  dirExists : Bool
  mainTexExists : Bool
  setupExc : Option ExcKind
  forceRebuild : Bool
  currentTexinputs : String
  rootRcExists : Bool
  localRcExists : Bool
  run : RunEnv
  artifactExists : Bool
  copyExc : Option String
  deriving DecidableEq, Repr

/-- The latexmk invocation assembled at build.py lines 811-837:
base command, non-interactive flag, optional force-rebuild flag (when
OMNILATEX_FORCE_REBUILD=1), optional -r flags for the root and local
.latexmkrc files, then main.tex. -/
def invokeFor (rootLatexmkrc : String) (env : UnitEnv) : List String :=
  let latexmkFlags := [INTERACTION_NONSTOP]
      ++ (if env.forceRebuild then [FORCE_REBUILD_FLAG] else [])
  let cmd := [LATEXMK_COMMAND] ++ latexmkFlags
  let cmd := cmd ++ (if env.rootRcExists then ["-r", rootLatexmkrc] else [])
  let cmd := cmd ++ (if env.localRcExists then ["-r", ".latexmkrc"] else [])
  cmd ++ [MAIN_TEX_FILENAME]

/-- build.py lines 815-819: the TEXINPUTS entry list starts from the
repository root, keeps any pre-existing (truthy, i.e. nonempty) value, and
ends with an empty entry. -/
def texinputsEntries (repoRoot currentTexinputs : String) : List String :=
  let entries := [repoRoot]
  let entries := if currentTexinputs ≠ "" then entries ++ [currentTexinputs] else entries
  entries ++ [""]

/-- build.py lines 820-828: the environment overrides handed to the
runner for one unit. -/
def extraEnvFor (repoRoot mintedCacheDir exampleCwd currentTexinputs : String) :
    List (String × String) :=
  [("MINTED_CACHE_DIR", mintedCacheDir),
   ("OMNILATEX_EXAMPLE_ROOT", exampleCwd),
   ("TEXINPUTS", String.intercalate pathSep (texinputsEntries repoRoot currentTexinputs)),
   ("LC_ALL", "C.utf8")]

/-- str(exc) for the exception kinds above. -/
def excText : ExcKind → String
  | .osError m => m
  | .fileNotFound m => m
  | .calledProcess r => "Command returned non-zero exit status " ++ toString r ++ "."
  | .other m => m
  | .unboundLocal => "cannot access local variable \x27invoke\x27"

/-- The error message assembled in the except handler of build_example
(build.py lines 852-860).  The verbose stderr appendix never fires here:
capture_output is False so a CalledProcessError has no captured stderr. -/
def buildFailedMsg (name : String) (invoke : List String) (exc : ExcKind) : String :=
  let category := categorizeError invoke exc
  let suggestions := getErrorSuggestions category invoke
  let base := "Failed to build example \x27" ++ name ++ "\x27: " ++ category
      ++ " - " ++ excText exc
  if suggestions.isEmpty then base
  else base ++ "\nSuggestions:\n"
      ++ String.intercalate "\n" (suggestions.map (fun s => "  - " ++ s))

/-- The exception classes named by the except clause of build_example at
build.py line 851: (OSError, subprocess.CalledProcessError,
FileNotFoundError).  Anything else is not caught. -/
def caughtByWorker : ExcKind → Bool
  | .osError _ => true
  | .fileNotFound _ => true
  | .calledProcess _ => true
  | _ => false

/-- Terminal status of one loop iteration of build_example. -/
inductive UnitOutcome where
  | skippedNoDir
  | skippedNoMainTex
  | success
  | failedNoArtifact
  | failedError (msg : String)
  deriving DecidableEq, Repr

/-- What one completed (non-propagating) iteration reports: its outcome,
whether the compiler runner was actually invoked, and the messages printed
for this unit. -/
structure UnitReport where
  outcome : UnitOutcome
  compilerInvoked : Bool
  messages : List Msg
  deriving DecidableEq, Repr

/-- One iteration of the loop body of build_example (build.py lines 781-864)
for unit `name` under world `env`.  A `.error e` value means Python
exception `e` escapes the iteration, aborting the whole loop.  Note the
handler hazard: when an exception is raised during cache-directory setup
(lines 806-809), i.e. before `invoke` is assigned at line 830, the except
clause catches it but its first statement (line 852) reads the unassigned
local `invoke`, so the handler itself raises UnboundLocalError. -/
def buildUnit (rootLatexmkrc name : String) (env : UnitEnv) :
    Except ExcKind UnitReport :=
  if !env.dirExists then
    .ok ⟨.skippedNoDir, false,
      [.stepProgress ("Processing example: " ++ name),
       .stepWarning ("Example directory not found: " ++ name)]⟩
  else if !env.mainTexExists then
    .ok ⟨.skippedNoMainTex, false,
      [.stepProgress ("Processing example: " ++ name),
       .stepWarning ("main.tex not found in " ++ name)]⟩
  else
    match env.setupExc with
    | some e =>
        if caughtByWorker e then .error .unboundLocal else .error e
    | none =>
        let invoke := invokeFor rootLatexmkrc env
        match commandRunnerRun invoke env.run with
        | .error e =>
            if caughtByWorker e then
              .ok ⟨.failedError (buildFailedMsg name invoke e), true,
                [.stepProgress ("Processing example: " ++ name),
                 .stepInfo "Setting up build environment",
                 .stepProgress "Running LaTeX compilation",
                 .stepError ("Build failed: " ++ buildFailedMsg name invoke e)]⟩
            else .error e
        | .ok (_, runMsgs) =>
            let common := [Msg.stepProgress ("Processing example: " ++ name),
                           Msg.stepInfo "Setting up build environment",
                           Msg.stepProgress "Running LaTeX compilation"] ++ runMsgs
            if env.artifactExists then
              match env.copyExc with
              | none =>
                  .ok ⟨.success, true,
                    common ++ [.stepSuccess
                      ("PDF copied to build directory: " ++ name ++ ".pdf")]⟩
              | some ioMsg =>
                  .ok ⟨.failedError (buildFailedMsg name invoke (.osError ioMsg)), true,
                    common ++ [.stepError
                      ("Build failed: " ++ buildFailedMsg name invoke (.osError ioMsg))]⟩
            else
              .ok ⟨.failedNoArtifact, true,
                common ++ [.stepWarning ("PDF not generated for " ++ name)]⟩

/-- Whether the iteration reached the `successful_builds += 1` statement
(build.py line 847). -/
def unitSucceeded (r : Except ExcKind UnitReport) : Bool :=
  match r with
  | .ok rep => match rep.outcome with | .success => true | _ => false
  | .error _ => false

/-- One submitted example name together with its world. -/
structure ExampleSpec where
  name : String
  env : UnitEnv
  deriving DecidableEq, Repr

/-- Whether the iteration for `u` lets a Python exception escape. -/
def propagates (rootLatexmkrc : String) (u : ExampleSpec) : Bool :=
  match buildUnit rootLatexmkrc u.name u.env with
  | .error _ => true
  | .ok _ => false

/-- Whether the iteration for `u` counts as a successful build. -/
def unitSucceedsB (rootLatexmkrc : String) (u : ExampleSpec) : Bool :=
  unitSucceeded (buildUnit rootLatexmkrc u.name u.env)

/-- The for-loop of build_example (build.py lines 780-864): units are
processed strictly in submission order, each contributing one report and
(on success only) one increment of successful_builds. -/
def buildExampleLoop (rootLatexmkrc : String) :
    List ExampleSpec → Except ExcKind (List (String × UnitReport) × Nat)
  | [] => .ok ([], 0)
  | u :: rest =>
      match buildUnit rootLatexmkrc u.name u.env with
      | .error e => .error e
      | .ok rep =>
          match buildExampleLoop rootLatexmkrc rest with
          | .error e => .error e
          | .ok (reps, cnt) =>
              .ok ((u.name, rep) :: reps,
                   (if rep.outcome = UnitOutcome.success then 1 else 0) + cnt)

/-- The final tally line (build.py line 869). -/
def tallyText (x y : Nat) : String :=
  "Successfully built " ++ toString x ++ "/" ++ toString y ++ " example(s)"

/-- Everything build_example reports when it runs to completion. -/
structure RunResult where
  reports : List (String × UnitReport)
  successfulBuilds : Nat
  tally : String
  deriving DecidableEq, Repr

/-- BuildTasks.build_example (build.py lines 742-869).  `.ok none` models
the two early returns (no names given at lines 757-759, examples directory
missing at lines 761-764) that print an error and report no tally.  The
creation of build/examples at line 768 is assumed to succeed. -/
def buildExampleCommand (rootLatexmkrc : String) (examplesDirExists : Bool)
    (files : List ExampleSpec) : Except ExcKind (Option RunResult) :=
  if files.isEmpty then .ok none
  else if !examplesDirExists then .ok none
  else
    match buildExampleLoop rootLatexmkrc files with
    | .error e => .error e
    | .ok (reps, cnt) => .ok (some ⟨reps, cnt, tallyText cnt files.length⟩)

/-- The fallback progress bar defined when the tqdm import fails
(build.py lines 31-48). -/
structure SimpleProgressBar where
  total : Nat
  desc : String
  unit : String
  current : Nat
  deriving DecidableEq, Repr

/-- The progress line SimpleProgressBar prints (build.py lines 37, 41, 45). -/
def progressLine (b : SimpleProgressBar) : String :=
  b.desc ++ ": " ++ toString b.current ++ "/" ++ toString b.total ++ " " ++ b.unit

/-- SimpleProgressBar.__init__ (build.py lines 32-37): state plus the line
it prints. -/
def SimpleProgressBar.new (total : Nat) (desc unitLabel : String) :
    SimpleProgressBar × List String :=
  let b : SimpleProgressBar := ⟨total, desc, unitLabel, 0⟩
  (b, [progressLine b])

/-- SimpleProgressBar.update (build.py lines 39-41). -/
def SimpleProgressBar.updateBar (b : SimpleProgressBar) (n : Nat) :
    SimpleProgressBar × List String :=
  let b2 := { b with current := b.current + n }
  (b2, [progressLine b2])

/-- SimpleProgressBar.set_description (build.py lines 43-45). -/
def SimpleProgressBar.setDescriptionBar (b : SimpleProgressBar) (desc : String) :
    SimpleProgressBar × List String :=
  let b2 := { b with desc := desc }
  (b2, [progressLine b2])

/-- Interface of a progress renderer: either the third-party tqdm (opaque
to this repository) or the SimpleProgressBar fallback.  Each operation
yields a new renderer state plus the display lines it emits. -/
structure Renderer (σ : Type) where
  new : Nat → String → String → σ × List String
  update : σ → Nat → σ × List String
  setDescription : σ → String → σ × List String
  close : σ → List String

/-- The fallback renderer, bundling the SimpleProgressBar operations;
close (build.py lines 47-48) prints nothing. -/
def simpleRenderer : Renderer SimpleProgressBar :=
  ⟨SimpleProgressBar.new, SimpleProgressBar.updateBar,
   SimpleProgressBar.setDescriptionBar, fun _ => []⟩

/-- Which renderer implementation the name `tqdm` is bound to after
the module initialisation of build.py. -/
inductive RendererChoice where
  | richTqdm
  | simpleFallback
  deriving DecidableEq, Repr

/-- The import-time capability probe (build.py lines 28-50): the name
`tqdm` is bound to the real tqdm when the import succeeds and to
SimpleProgressBar when ImportError is raised; the except arm raises
nothing and prints nothing. -/
def selectRenderer (tqdmAvailable : Bool) : RendererChoice :=
  if tqdmAvailable then .richTqdm else .simpleFallback

/-- the build_example loop with the progress-bar calls threaded through an
arbitrary renderer (build.py lines 781-864: set_description before each
unit when use_progress holds, update(1) in the finally clause). -/
def buildLoopR {σ : Type} (R : Renderer σ) (rootLatexmkrc : String)
    (useProgress : Bool) (st : σ) :
    List ExampleSpec → Except ExcKind (List (String × UnitReport) × Nat × σ × List String)
  | [] => .ok ([], 0, st, [])
  | u :: rest =>
      let s1 := if useProgress then R.setDescription st ("Building " ++ u.name)
                else (st, [])
      match buildUnit rootLatexmkrc u.name u.env with
      | .error e => .error e
      | .ok rep =>
          let s2 := if useProgress then R.update s1.1 1 else (s1.1, [])
          match buildLoopR R rootLatexmkrc useProgress s2.1 rest with
          | .error e => .error e
          | .ok (reps, cnt, stFin, disp) =>
              .ok ((u.name, rep) :: reps,
                   (if rep.outcome = UnitOutcome.success then 1 else 0) + cnt,
                   stFin, s1.2 ++ s2.2 ++ disp)

/-- Projection of a rendered run onto its build-relevant part: reports and
the successful-build count. -/
def loopResults {σ : Type}
    (r : Except ExcKind (List (String × UnitReport) × Nat × σ × List String)) :
    Except ExcKind (List (String × UnitReport) × Nat) :=
  r.map (fun t => (t.1, t.2.1))

/-- The build-relevant part of the rendered loop coincides with the plain
loop, whatever the renderer, its initial state, and the use_progress flag. -/
theorem loopResults_buildLoopR {σ : Type} (R : Renderer σ)
    (rootLatexmkrc : String) (useProgress : Bool) :
    ∀ (files : List ExampleSpec) (st : σ),
      loopResults (buildLoopR R rootLatexmkrc useProgress st files) =
        buildExampleLoop rootLatexmkrc files := by
  intro files
  induction files with
  | nil => intro st; rfl
  | cons u rest ih =>
      intro st
      simp only [buildLoopR, buildExampleLoop]
      cases hbu : buildUnit rootLatexmkrc u.name u.env with
      | error e => rfl
      | ok rep =>
          have hrec := ih ((if useProgress then
              R.update (if useProgress then
                R.setDescription st ("Building " ++ u.name) else (st, [])).1 1
              else ((if useProgress then
                R.setDescription st ("Building " ++ u.name) else (st, [])).1, [])).1)
          cases hloop : buildLoopR R rootLatexmkrc useProgress
              ((if useProgress then
              R.update (if useProgress then
                R.setDescription st ("Building " ++ u.name) else (st, [])).1 1
              else ((if useProgress then
                R.setDescription st ("Building " ++ u.name) else (st, [])).1, [])).1) rest with
          | error e =>
              rw [hloop] at hrec
              simp only [loopResults, Except.map] at hrec ⊢
              rw [← hrec]
          | ok t =>
              rw [hloop] at hrec
              simp only [loopResults, Except.map] at hrec ⊢
              rw [← hrec]

/-- Worker activity events: a unit build starts / finishes. -/
inductive Ev where
  | start (name : String)
  | finish (name : String)
  deriving DecidableEq, Repr

/-- Worker activity trace of build_example: the source is a plain
sequential for-loop (build.py lines 781-864), so each per-unit work interval
closes before the next one opens. -/
def buildTrace : List String → List Ev
  | [] => []
  | n :: rest => Ev.start n :: Ev.finish n :: buildTrace rest

/-- The instrumentation counter: incremented when a worker starts,
decremented when it finishes. -/
def stepActive (n : Nat) : Ev → Nat
  | Ev.start _ => n + 1
  | Ev.finish _ => n - 1

/-- Number of simultaneously active workers at each instant of a trace
(including the initial instant). -/
def activeCounts (t : List Ev) : List Nat :=
  t.scanl stepActive 0

/-- The largest number of simultaneously active workers over a run. -/
def maxActive (t : List Ev) : Nat :=
  (activeCounts t).foldr Nat.max 0

theorem activeCounts_buildTrace_cons (n : String) (rest : List String) :
    activeCounts (buildTrace (n :: rest)) = 0 :: 1 :: activeCounts (buildTrace rest) := by
  simp [activeCounts, buildTrace, List.scanl_cons, stepActive]

theorem maxActive_buildTrace_le_one (names : List String) :
    maxActive (buildTrace names) ≤ 1 := by
  induction names with
  | nil => simp [maxActive, activeCounts, buildTrace]
  | cons n rest ih =>
      have h := activeCounts_buildTrace_cons n rest
      simp only [maxActive, h, List.foldr_cons]
      simp only [maxActive] at ih
      simp only [Nat.zero_max]
      exact Nat.max_le.mpr ⟨le_refl 1, ih⟩

/-- Whatever the optional flags, the assembled invocation starts with the
latexmk base command. -/
theorem invokeFor_head (rootLatexmkrc : String) (env : UnitEnv) :
    (invokeFor rootLatexmkrc env).headD "" = LATEXMK_COMMAND := by
  unfold invokeFor
  simp [List.append_assoc]

/-- Because the invocation starts with latexmk, the handler always
categorizes an exception from a unit build as a LaTeX compilation error. -/
theorem categorizeError_invokeFor (rootLatexmkrc : String) (env : UnitEnv)
    (exc : ExcKind) :
    categorizeError (invokeFor rootLatexmkrc env) exc = "LaTeX compilation error" := by
  unfold categorizeError
  rw [invokeFor_head]
  have h : latexCommands.contains (strLower LATEXMK_COMMAND) = true := by decide
  simp only [h, if_true]

/-- Success of one iteration, in the absence of a setup exception, is the
conjunction of post-invocation artifact existence and a successful copy:
in particular it does not consult the exit code. -/
theorem unitSucceeded_eq (rootLatexmkrc name : String) (env : UnitEnv)
    (hd : env.dirExists = true) (hm : env.mainTexExists = true)
    (hs : env.setupExc = none) :
    unitSucceeded (buildUnit rootLatexmkrc name env) =
      (env.artifactExists && env.copyExc.isNone) := by
  obtain ⟨msgs, hmsgs⟩ := commandRunnerRun_ok (invokeFor rootLatexmkrc env) env.run
  unfold buildUnit
  rw [hd, hm, hs]
  simp only [Bool.not_true, Bool.false_eq_true, if_false, hmsgs]
  cases ha : env.artifactExists with
  | false => simp [unitSucceeded]
  | true =>
      cases hc : env.copyExc with
      | none => simp [unitSucceeded]
      | some m => simp [unitSucceeded]

/-- In the absence of a setup exception an iteration always completes with
a report; no Python exception escapes it. -/
theorem buildUnit_ok (rootLatexmkrc name : String) (env : UnitEnv)
    (hs : env.setupExc = none) :
    ∃ rep, buildUnit rootLatexmkrc name env = Except.ok rep := by
  obtain ⟨msgs, hmsgs⟩ := commandRunnerRun_ok (invokeFor rootLatexmkrc env) env.run
  unfold buildUnit
  by_cases hd : env.dirExists = true
  · by_cases hm : env.mainTexExists = true
    · rw [hd, hm, hs]
      simp only [Bool.not_true, Bool.false_eq_true, if_false, hmsgs]
      cases ha : env.artifactExists with
      | false => exact ⟨_, rfl⟩
      | true =>
          cases hc : env.copyExc with
          | none => exact ⟨_, rfl⟩
          | some m => exact ⟨_, rfl⟩
    · simp only [Bool.not_eq_true] at hm
      rw [hd, hm]
      exact ⟨_, rfl⟩
  · simp only [Bool.not_eq_true] at hd
    rw [hd]
    exact ⟨_, rfl⟩

/-- When no iteration propagates an exception, the loop returns one report
per submitted unit, in submission order, and counts exactly the successful
units. -/
theorem buildExampleLoop_ok (rootLatexmkrc : String) (files : List ExampleSpec)
    (h : ∀ u ∈ files, propagates rootLatexmkrc u = false) :
    ∃ reps, buildExampleLoop rootLatexmkrc files =
        Except.ok (reps, files.countP (unitSucceedsB rootLatexmkrc)) ∧
      reps.map Prod.fst = files.map ExampleSpec.name ∧
      reps.length = files.length := by
  induction files with
  | nil => exact ⟨[], rfl, rfl, rfl⟩
  | cons u rest ih =>
      have hu : propagates rootLatexmkrc u = false := h u (List.mem_cons_self u rest)
      have hrest : ∀ v ∈ rest, propagates rootLatexmkrc v = false :=
        fun v hv => h v (List.mem_cons_of_mem u hv)
      obtain ⟨reps, hloop, hmap, hlen⟩ := ih hrest
      cases hbu : buildUnit rootLatexmkrc u.name u.env with
      | error e =>
          unfold propagates at hu
          rw [hbu] at hu
          simp at hu
      | ok rep =>
          refine ⟨(u.name, rep) :: reps, ?_, ?_, ?_⟩
          · simp only [buildExampleLoop, hbu, hloop]
            have hcount : (u :: rest).countP (unitSucceedsB rootLatexmkrc) =
                rest.countP (unitSucceedsB rootLatexmkrc)
                  + (if unitSucceedsB rootLatexmkrc u = true then 1 else 0) := by
              simp [List.countP_cons]
            rw [hcount]
            have hsucc : unitSucceedsB rootLatexmkrc u =
                (match rep.outcome with | UnitOutcome.success => true | _ => false) := by
              unfold unitSucceedsB unitSucceeded
              rw [hbu]
            cases ho : rep.outcome
            all_goals rw [ho] at hsucc
            all_goals simp [hsucc, ho]
            all_goals omega
          · simp [hmap]
          · simp [hlen]

/-- A concrete unit world: directory and main.tex present, no setup
exception, compiler exits 1, main.pdf present afterwards, but the copy of
the artifact into build/examples raises an OSError. -/
def envC1 : UnitEnv where
  dirExists := true
  mainTexExists := true
  setupExc := none
  forceRebuild := false
  currentTexinputs := ""
  rootRcExists := true
  localRcExists := false
  run := { progMissing := false, exitCode := 1 }
  artifactExists := true
  copyExc := some "[Errno 13] Permission denied: \x27build/examples/a.pdf\x27"

/-- The same world with a clean exit and a successful copy. -/
def envOk : UnitEnv :=
  { envC1 with run := { progMissing := false, exitCode := 0 }, copyExc := none }

/-- C1, counterexample: the claimed equivalence "succeeded iff main.pdf
exists in the unit directory after the invocation" is false on the code:
in `envC1` the artifact exists after the (nonzero-exit) invocation, yet
the outcome is a failure, because the copy into the output directory
fails. -/
theorem C1_counterexample :
    envC1.artifactExists = true ∧
    unitSucceeded (buildUnit "/repo/.latexmkrc" "a" envC1) = false :=
  ⟨rfl, rfl⟩

/-- C1 (amended): for a unit that passes the directory and main.tex checks
and hits no setup exception, the outcome is successful iff the artifact
exists after the invocation AND its copy into the output directory
succeeds; and the success value is independent of the subprocess
behaviour (exit code or even a missing compiler binary). -/
theorem C1_success_policy_amended (rootLatexmkrc name : String) (env : UnitEnv)
    (hd : env.dirExists = true) (hm : env.mainTexExists = true)
    (hs : env.setupExc = none) :
    (unitSucceeded (buildUnit rootLatexmkrc name env) = true ↔
      env.artifactExists = true ∧ env.copyExc = none) ∧
    ∀ r : RunEnv,
      unitSucceeded (buildUnit rootLatexmkrc name { env with run := r }) =
        unitSucceeded (buildUnit rootLatexmkrc name env) := by
  constructor
  · rw [unitSucceeded_eq rootLatexmkrc name env hd hm hs]
    simp [Bool.and_eq_true, Option.isNone_iff_eq_none]
  · intro r
    rw [unitSucceeded_eq rootLatexmkrc name env hd hm hs,
        unitSucceeded_eq rootLatexmkrc name { env with run := r } hd hm hs]

/-- C1, witness: with the artifact present and the copy succeeding, the
amended policy yields success on a concrete world. -/
theorem C1_success_policy_witness :
    unitSucceeded (buildUnit "/repo/.latexmkrc" "a" envOk) = true :=
  ((C1_success_policy_amended "/repo/.latexmkrc" "a" envOk rfl rfl rfl).1).mpr
    ⟨rfl, rfl⟩

/-- A concrete unit world in which creating the unit-local cache
directories (build.py lines 806-809) raises OSError - e.g. the example
directory is read-only. -/
def envC2 : UnitEnv :=
  { envC1 with
      setupExc := some (ExcKind.osError "[Errno 13] Permission denied: \x27_minted\x27"),
      run := { progMissing := false, exitCode := 0 },
      artifactExists := false,
      copyExc := none }

/-- C2: the worker does NOT convert every internal error into a failure
outcome.  An OSError raised while creating the cache directories is
caught by the except clause at build.py line 851, but whose first
statement (line 852) reads the local `invoke`, which is only assigned at
line 830 - after the raise point - so the handler itself raises
UnboundLocalError, which nothing catches: the exception escapes the
per-unit step (aborting the sibling units), contradicting the claim and
the docstring "No exceptions raised" at line 755. -/
theorem C2_handler_raises :
    buildUnit "/repo/.latexmkrc" "a" envC2 = Except.error ExcKind.unboundLocal ∧
    propagates "/repo/.latexmkrc" ⟨"a", envC2⟩ = true :=
  ⟨rfl, rfl⟩

/-- The exact text of buildFailedMsg for an OSError: latexmk heads the
invocation, so the category is always "LaTeX compilation error", whose
suggestion list is nonempty. -/
theorem buildFailedMsg_osError (rootLatexmkrc name ioMsg : String) (env : UnitEnv) :
    buildFailedMsg name (invokeFor rootLatexmkrc env) (ExcKind.osError ioMsg) =
      ("Failed to build example \x27" ++ name ++ "\x27: " ++ "LaTeX compilation error"
          ++ " - " ++ ioMsg)
        ++ "\nSuggestions:\n"
        ++ String.intercalate "\n"
            ((getErrorSuggestions "LaTeX compilation error"
                (invokeFor rootLatexmkrc env)).map (fun s => "  - " ++ s)) := by
  unfold buildFailedMsg
  rw [categorizeError_invokeFor]
  have hsug : getErrorSuggestions "LaTeX compilation error" (invokeFor rootLatexmkrc env) =
      ["Check TEXINPUTS environment variable for missing packages or paths.",
       "Ensure all required LaTeX packages are installed (e.g., via tlmgr).",
       "Verify the .tex file syntax and references."] := by
    unfold getErrorSuggestions
    rw [if_pos rfl]
  rw [hsug]
  rfl

/-- C3: when the unit produces its artifact but copying it into the
shared output directory raises an OSError, the outcome is not a success
(it does not reach successful_builds += 1), and the OSError text appears
verbatim inside a reported error line of that unit. -/
theorem C3_copy_failure_downgrades (rootLatexmkrc name ioMsg : String) (env : UnitEnv)
    (hd : env.dirExists = true) (hm : env.mainTexExists = true)
    (hs : env.setupExc = none) (ha : env.artifactExists = true)
    (hc : env.copyExc = some ioMsg) :
    unitSucceeded (buildUnit rootLatexmkrc name env) = false ∧
    ∃ rep, buildUnit rootLatexmkrc name env = Except.ok rep ∧
      ∃ s, Msg.stepError s ∈ rep.messages ∧
        ∃ b a, s = b ++ ioMsg ++ a := by
  obtain ⟨msgs, hmsgs⟩ := commandRunnerRun_ok (invokeFor rootLatexmkrc env) env.run
  have hbu : buildUnit rootLatexmkrc name env = Except.ok
      ⟨.failedError (buildFailedMsg name (invokeFor rootLatexmkrc env)
          (.osError ioMsg)), true,
        ([Msg.stepProgress ("Processing example: " ++ name),
          Msg.stepInfo "Setting up build environment",
          Msg.stepProgress "Running LaTeX compilation"] ++ msgs)
        ++ [.stepError ("Build failed: " ++ buildFailedMsg name
              (invokeFor rootLatexmkrc env) (.osError ioMsg))]⟩ := by
    unfold buildUnit
    rw [hd, hm, hs]
    simp only [Bool.not_true, Bool.false_eq_true, if_false, hmsgs, ha, hc]
    rw [if_pos trivial]
  constructor
  · rw [unitSucceeded_eq rootLatexmkrc name env hd hm hs, hc]
    simp [ha]
  · refine ⟨_, hbu, "Build failed: " ++ buildFailedMsg name
        (invokeFor rootLatexmkrc env) (.osError ioMsg), ?_, ?_⟩
    · exact List.mem_append.mpr (Or.inr (List.mem_singleton.mpr rfl))
    · refine ⟨"Build failed: " ++ ("Failed to build example \x27" ++ name
          ++ "\x27: " ++ "LaTeX compilation error" ++ " - "),
        "\nSuggestions:\n"
          ++ String.intercalate "\n"
              ((getErrorSuggestions "LaTeX compilation error"
                  (invokeFor rootLatexmkrc env)).map (fun s => "  - " ++ s)), ?_⟩
      rw [buildFailedMsg_osError]
      simp [String.append_assoc]

/-- C3, witness: the downgrade on the concrete copy-failure world. -/
theorem C3_copy_failure_witness :
    unitSucceeded (buildUnit "/repo/.latexmkrc" "a" envC1) = false ∧
    ∃ rep, buildUnit "/repo/.latexmkrc" "a" envC1 = Except.ok rep ∧
      ∃ s, Msg.stepError s ∈ rep.messages ∧
        ∃ b a, s = b ++ "[Errno 13] Permission denied: \x27build/examples/a.pdf\x27" ++ a :=
  C3_copy_failure_downgrades "/repo/.latexmkrc" "a"
    "[Errno 13] Permission denied: \x27build/examples/a.pdf\x27" envC1
    rfl rfl rfl rfl rfl

/-- C5: for every command, the invocation layer returns (with None as its
value) rather than raising, both when the program cannot be located or
started and when a started process exits nonzero; in each failure case it
reports exactly one diagnostic line. -/
theorem C5_runner_never_raises (cmdArgs : List String) (env : RunEnv) :
    (∃ out, commandRunnerRun cmdArgs env = Except.ok (none, out)) ∧
    (env.progMissing = true →
      ∃ d, commandRunnerRun cmdArgs env = Except.ok (none, [d])) ∧
    (env.progMissing = false → env.exitCode ≠ 0 →
      ∃ d, commandRunnerRun cmdArgs env = Except.ok (none, [d])) := by
  refine ⟨commandRunnerRun_ok cmdArgs env, ?_, ?_⟩
  · intro h
    unfold commandRunnerRun subprocessRun
    simp only [h, if_true]
    exact ⟨_, rfl⟩
  · intro h1 h2
    unfold commandRunnerRun subprocessRun
    simp only [h1, Bool.false_eq_true, if_false]
    simp only [bne_iff_ne, ne_eq, h2, not_false_eq_true, if_true]
    exact ⟨_, rfl⟩

/-- C5, witness: a missing latexmk binary yields a single diagnostic and a
returned None. -/
theorem C5_runner_witness :
    ∃ d, commandRunnerRun [LATEXMK_COMMAND] { progMissing := true, exitCode := 0 } =
      Except.ok (none, [d]) :=
  (C5_runner_never_raises [LATEXMK_COMMAND] { progMissing := true, exitCode := 0 }).2.1 rfl

/-- C4: for every nonempty submitted list whose units raise no unhandled
internal exception, build_example processes each name exactly once, in
submission order (the reported names equal the submitted names), and its
final tally line is exactly "Successfully built X/Y example(s)" with Y the
number of submitted names and X the number of successful builds. -/
theorem C4_tally (rootLatexmkrc : String) (files : List ExampleSpec)
    (hne : files ≠ [])
    (hnp : ∀ u ∈ files, propagates rootLatexmkrc u = false) :
    ∃ res : RunResult,
      buildExampleCommand rootLatexmkrc true files = Except.ok (some res) ∧
      res.reports.map Prod.fst = files.map ExampleSpec.name ∧
      res.reports.length = files.length ∧
      res.successfulBuilds = files.countP (unitSucceedsB rootLatexmkrc) ∧
      res.tally = tallyText (files.countP (unitSucceedsB rootLatexmkrc)) files.length := by
  obtain ⟨reps, hloop, hmap, hlen⟩ := buildExampleLoop_ok rootLatexmkrc files hnp
  refine ⟨⟨reps, files.countP (unitSucceedsB rootLatexmkrc),
      tallyText (files.countP (unitSucceedsB rootLatexmkrc)) files.length⟩, ?_, hmap, hlen, rfl, rfl⟩
  unfold buildExampleCommand
  have hne2 : files.isEmpty = false := by
    cases files with
    | nil => exact absurd rfl hne
    | cons a l => rfl
  rw [hne2]
  simp only [Bool.false_eq_true, if_false, Bool.not_true, hloop]

/-- C4, witness: one concrete unit, processed once, tally 1/1. -/
theorem C4_tally_witness :
    ∃ res : RunResult,
      buildExampleCommand "/repo/.latexmkrc" true [⟨"a", envOk⟩] = Except.ok (some res) ∧
      res.reports.map Prod.fst = [⟨"a", envOk⟩].map ExampleSpec.name ∧
      res.reports.length = [(⟨"a", envOk⟩ : ExampleSpec)].length ∧
      res.successfulBuilds = [(⟨"a", envOk⟩ : ExampleSpec)].countP (unitSucceedsB "/repo/.latexmkrc") ∧
      res.tally = tallyText ([(⟨"a", envOk⟩ : ExampleSpec)].countP
          (unitSucceedsB "/repo/.latexmkrc")) [(⟨"a", envOk⟩ : ExampleSpec)].length :=
  C4_tally "/repo/.latexmkrc" [⟨"a", envOk⟩] (by decide)
    (by intro u hu; rw [List.mem_singleton.mp hu]; rfl)

/-- C6, counterexample: with repository root "/repo", unit directory
"/repo/examples/thesis" and pre-existing include path "/pre", the
TEXINPUTS override handed to the compiler is "/repo:/pre:"; the unit directory
directory is not among its entries, contradicting the claim that it is
prepended. -/
theorem C6_counterexample :
    (extraEnvFor "/repo" "/repo/build/_minted" "/repo/examples/thesis" "/pre").lookup
        "TEXINPUTS" = some "/repo:/pre:" ∧
    "/repo/examples/thesis" ∉ texinputsEntries "/repo" "/pre" := by
  constructor
  · rfl
  · decide

/-- C6 (amended): the TEXINPUTS override is built by prepending the
repository root - and only it - to any pre-existing include path, with a
trailing empty entry; the unit directory is not added (it is only the
working directory of the compiler and the value of the
separate OMNILATEX_EXAMPLE_ROOT variable). -/
theorem C6_texinputs_amended (repoRoot cur unitDir : String)
    (h1 : cur ≠ "") (h2 : unitDir ≠ repoRoot) (h3 : unitDir ≠ cur) (h4 : unitDir ≠ "") :
    texinputsEntries repoRoot cur = [repoRoot, cur, ""] ∧
    unitDir ∉ texinputsEntries repoRoot cur ∧
    (extraEnvFor repoRoot (repoRoot ++ "/build/_minted") unitDir cur).lookup "TEXINPUTS" =
      some (String.intercalate pathSep [repoRoot, cur, ""]) := by
  have he : texinputsEntries repoRoot cur = [repoRoot, cur, ""] := by
    unfold texinputsEntries
    simp [h1]
  refine ⟨he, ?_, ?_⟩
  · rw [he]
    simp [h2, h3, h4]
  · unfold extraEnvFor
    rw [he]
    rfl

/-- C6, witness of the amended statement on concrete paths. -/
theorem C6_texinputs_witness :
    texinputsEntries "/repo" "/pre" = ["/repo", "/pre", ""] ∧
    "/repo/examples/thesis" ∉ texinputsEntries "/repo" "/pre" ∧
    (extraEnvFor "/repo" ("/repo" ++ "/build/_minted") "/repo/examples/thesis" "/pre").lookup
        "TEXINPUTS" = some (String.intercalate pathSep ["/repo", "/pre", ""]) :=
  C6_texinputs_amended "/repo" "/pre" "/repo/examples/thesis"
    (by decide) (by decide) (by decide) (by decide)

/-- C7, counterexample: build_example is a strictly sequential loop, so
even with two queued units (and a putative limit J = 2) there is never an
instant with two simultaneously active workers - there is no pool of
"exactly J concurrently active workers" (indeed no concurrency-limit
parameter exists in the code). -/
theorem C7_counterexample :
    maxActive (buildTrace ["a", "b"]) = 1 ∧
    ¬ 2 ≤ maxActive (buildTrace ["a", "b"]) := by
  decide

/-- C7 (amended): the implementation processes units strictly
sequentially, one at a time; hence for every J ≥ 1 the number of
simultaneously active workers never exceeds J - the bound holds, but
trivially, with at most one worker ever active and the next unit starting
exactly when its predecessor finishes. -/
theorem C7_sequential_bound (names : List String) (J : Nat) (hJ : 1 ≤ J) :
    maxActive (buildTrace names) ≤ J :=
  le_trans (maxActive_buildTrace_le_one names) hJ

/-- C7, witness: the bound at J = 2 over two units. -/
theorem C7_sequential_witness : maxActive (buildTrace ["a", "b"]) ≤ 2 :=
  C7_sequential_bound ["a", "b"] 2 (by decide)

/-- C8: when the tqdm import fails the probe silently selects the
SimpleProgressBar fallback (no exception, no message), and the choice of
renderer - indeed any renderer state and even whether the progress bar is
used at all - has no effect on the reports or on the successful-build
count of the run. -/
theorem C8_renderer_no_effect :
    selectRenderer false = RendererChoice.simpleFallback ∧
    ∀ (σ σ2 : Type) (R : Renderer σ) (R2 : Renderer σ2) (st : σ) (st2 : σ2)
      (up up2 : Bool) (rootLatexmkrc : String) (files : List ExampleSpec),
      loopResults (buildLoopR R rootLatexmkrc up st files) =
        loopResults (buildLoopR R2 rootLatexmkrc up2 st2 files) := by
  refine ⟨rfl, ?_⟩
  intro σ σ2 R R2 st st2 up up2 rootLatexmkrc files
  rw [loopResults_buildLoopR, loopResults_buildLoopR]

/-- The successful-build counter after the first k loop iterations. -/
def successesAfter (rootLatexmkrc : String) (files : List ExampleSpec) (k : Nat) : Nat :=
  (files.take k).countP (unitSucceedsB rootLatexmkrc)

/-- C9: over any run, the successful-build counter is monotonically
non-decreasing, increases by at most one per processed unit, never
exceeds the total number of submitted units, and (when no unit
propagates an exception) its final value is exactly the count the loop
returns. -/
theorem C9_counter_invariant (rootLatexmkrc : String) (files : List ExampleSpec) (k : Nat) :
    successesAfter rootLatexmkrc files k ≤ successesAfter rootLatexmkrc files (k + 1) ∧
    successesAfter rootLatexmkrc files (k + 1) ≤ successesAfter rootLatexmkrc files k + 1 ∧
    successesAfter rootLatexmkrc files k ≤ files.length ∧
    ((∀ u ∈ files, propagates rootLatexmkrc u = false) →
      ∃ reps, buildExampleLoop rootLatexmkrc files =
        Except.ok (reps, successesAfter rootLatexmkrc files files.length)) := by
  have htake : files.take (k + 1) = files.take k ++ (files[k]?).toList := List.take_succ
  have hstep : successesAfter rootLatexmkrc files (k + 1) =
      successesAfter rootLatexmkrc files k
        + (files[k]?).toList.countP (unitSucceedsB rootLatexmkrc) := by
    unfold successesAfter
    rw [htake, List.countP_append]
  have hone : (files[k]?).toList.countP (unitSucceedsB rootLatexmkrc) ≤ 1 := by
    cases h : files[k]? with
    | none => simp
    | some u => simpa using List.countP_le_length (l := [u]) (p := unitSucceedsB rootLatexmkrc)
  refine ⟨?_, ?_, ?_, ?_⟩
  · rw [hstep]; omega
  · rw [hstep]; omega
  · calc successesAfter rootLatexmkrc files k
        ≤ (files.take k).length := List.countP_le_length _
      _ ≤ files.length := by
          rw [List.length_take]; omega
  · intro h
    obtain ⟨reps, hloop, _, _⟩ := buildExampleLoop_ok rootLatexmkrc files h
    refine ⟨reps, ?_⟩
    unfold successesAfter
    rw [List.take_length]
    exact hloop

/-- C9, witness: the final counter value on a concrete one-unit run. -/
theorem C9_counter_witness :
    ∃ reps, buildExampleLoop "/repo/.latexmkrc" [⟨"a", envOk⟩] =
      Except.ok (reps, successesAfter "/repo/.latexmkrc" [⟨"a", envOk⟩] 1) :=
  (C9_counter_invariant "/repo/.latexmkrc" [⟨"a", envOk⟩] 0).2.2.2
    (by intro u hu; rw [List.mem_singleton.mp hu]; rfl)

/-- A skipped unit: its directory does not exist. -/
theorem buildUnit_noDir (rootLatexmkrc name : String) (env : UnitEnv)
    (hdf : env.dirExists = false) :
    buildUnit rootLatexmkrc name env = Except.ok
      ⟨.skippedNoDir, false,
        [.stepProgress ("Processing example: " ++ name),
         .stepWarning ("Example directory not found: " ++ name)]⟩ := by
  unfold buildUnit
  rw [hdf]
  rfl

/-- A skipped unit: its directory exists but lacks main.tex. -/
theorem buildUnit_noMainTex (rootLatexmkrc name : String) (env : UnitEnv)
    (hd : env.dirExists = true) (hmf : env.mainTexExists = false) :
    buildUnit rootLatexmkrc name env = Except.ok
      ⟨.skippedNoMainTex, false,
        [.stepProgress ("Processing example: " ++ name),
         .stepWarning ("main.tex not found in " ++ name)]⟩ := by
  unfold buildUnit
  rw [hd, hmf]
  rfl

/-- C10: a unit whose directory is missing, or whose directory lacks
main.tex, is skipped with a warning message, without invoking the
compiler, without raising, and without counting as a success; when it
heads the submitted list the remaining units are still processed, the
skipped unit contributes nothing to the success count, and it still
counts in the denominator of the final tally. -/
theorem C10_skipped_units (rootLatexmkrc name : String) (env : UnitEnv)
    (h : env.dirExists = false ∨ env.mainTexExists = false) :
    (∃ rep, buildUnit rootLatexmkrc name env = Except.ok rep ∧
      rep.compilerInvoked = false ∧
      rep.outcome ≠ UnitOutcome.success ∧
      ∃ w, Msg.stepWarning w ∈ rep.messages) ∧
    propagates rootLatexmkrc ⟨name, env⟩ = false ∧
    (∀ rest reps cnt, buildExampleLoop rootLatexmkrc rest = Except.ok (reps, cnt) →
      ∃ rep, buildExampleCommand rootLatexmkrc true (⟨name, env⟩ :: rest) =
        Except.ok (some ⟨(name, rep) :: reps, cnt, tallyText cnt (rest.length + 1)⟩)) := by
  have hbu : ∃ rep, buildUnit rootLatexmkrc name env = Except.ok rep ∧
      rep.compilerInvoked = false ∧
      (rep.outcome = UnitOutcome.skippedNoDir ∨
        rep.outcome = UnitOutcome.skippedNoMainTex) ∧
      ∃ w, Msg.stepWarning w ∈ rep.messages := by
    rcases h with hdf | hmf
    · exact ⟨_, buildUnit_noDir rootLatexmkrc name env hdf, rfl, Or.inl rfl,
        "Example directory not found: " ++ name, by simp⟩
    · by_cases hd : env.dirExists = true
      · exact ⟨_, buildUnit_noMainTex rootLatexmkrc name env hd hmf, rfl, Or.inr rfl,
          "main.tex not found in " ++ name, by simp⟩
      · have hdf : env.dirExists = false := by
          cases hde : env.dirExists
          · rfl
          · exact absurd hde hd
        exact ⟨_, buildUnit_noDir rootLatexmkrc name env hdf, rfl, Or.inl rfl,
          "Example directory not found: " ++ name, by simp⟩
  obtain ⟨rep, hrep, hinv, hout, hw⟩ := hbu
  have houtne : rep.outcome ≠ UnitOutcome.success := by
    rcases hout with h1 | h1 <;> rw [h1] <;> intro hcon <;> cases hcon
  refine ⟨⟨rep, hrep, hinv, houtne, hw⟩, ?_, ?_⟩
  · unfold propagates
    rw [hrep]
  · intro rest reps cnt hrest
    refine ⟨rep, ?_⟩
    unfold buildExampleCommand
    have hcons : ((⟨name, env⟩ : ExampleSpec) :: rest).isEmpty = false := rfl
    rw [hcons]
    simp only [Bool.false_eq_true, if_false, Bool.not_true, buildExampleLoop, hrep, hrest]
    have hzero : (if rep.outcome = UnitOutcome.success then 1 else 0) = 0 := by
      rw [if_neg houtne]
    rw [hzero]
    simp [tallyText]

/-- C10, witness: a one-element run over a unit with no directory. -/
def envNoDir : UnitEnv :=
  { envOk with dirExists := false }

/-- C10, witness theorem: the concrete skipped unit yields a 0/1 tally
with one report and no exception. -/
theorem C10_skipped_witness :
    ∃ rep, buildExampleCommand "/repo/.latexmkrc" true [⟨"missing", envNoDir⟩] =
      Except.ok (some ⟨[("missing", rep)], 0, tallyText 0 1⟩) :=
  (C10_skipped_units "/repo/.latexmkrc" "missing" envNoDir (Or.inl rfl)).2.2 [] [] 0 rfl
